import Mathlib

/-!
Verification of the cdp-cli daemon subsystem against its specification.

The definitions below are shallow embeddings of the TypeScript source:

* `CircularBuffer` embeds `src/daemon/circular-buffer.ts` (class `CircularBuffer`);
* `WireState` with `sendCommandWith`/`deliverFrame`/`fireTimeout` embeds the
  promise-based command correlation of `PageSession.sendCommand` and
  `CDPContext.sendCommand`;
* `SessionState` with `handleEvent`/`clearLogs` embeds the event handling of
  `PageSession.handleMessage`, `PageSession.updateNetworkRequest`,
  `PageSession.getConsoleMessage` and `PageSession.clearLogs`;
* `sweep`/`registerPage`/`postSessions`/`execBatch` embed the daemon registry
  (`CDPDaemon.startHealthCheck`, `CDPDaemon.registerPage`,
  `CDPDaemon.handleRequest`).

Machine integers in the source are JavaScript numbers used only as small
counters and sizes; they are embedded as `Nat`/`Int`.
-/

/-! ## CircularBuffer (src/daemon/circular-buffer.ts)

The JS class holds `buffer` (a JS array of length `capacity`, slots possibly
`undefined`), `head`, `count`, `capacity`.  A slot that was never written reads
as `undefined`; we embed slots as `Option T` (`none` = `undefined`). -/

structure CircularBuffer (T : Type) where
  buffer : List (Option T)
  head : Nat
  count : Nat
  capacity : Nat
deriving Repr

namespace CircularBuffer

/-- Embeds `constructor(capacity)`: throws `'Capacity must be positive'` when
`capacity <= 0`, else allocates `new Array(capacity)` (all slots undefined). -/
def create (T : Type) (capacity : Int) : Except String (CircularBuffer T) :=
  if capacity ≤ 0 then
    Except.error "Capacity must be positive"
  else
    Except.ok ⟨List.replicate capacity.toNat none, 0, 0, capacity.toNat⟩

/-- Embeds `push(item)`: writes at `(head + count) % capacity`; when not full
increments `count`, else advances `head`. -/
def push {T : Type} (b : CircularBuffer T) (item : T) : CircularBuffer T :=
  let index := (b.head + b.count) % b.capacity
  let buf := b.buffer.set index (some item)
  if b.count < b.capacity then
    { b with buffer := buf, count := b.count + 1 }
  else
    { b with buffer := buf, head := (b.head + 1) % b.capacity }

/-- Embeds `getLast(n)`: `min(n, count)` reads at `(head + count - 1 - i) % capacity`,
most recent first. -/
def getLast {T : Type} (b : CircularBuffer T) (n : Nat) : List (Option T) :=
  (List.range (min n b.count)).map fun i =>
    b.buffer.getD ((b.head + b.count - 1 - i) % b.capacity) none

/-- Embeds `getAll()`: `count` reads at `(head + i) % capacity`, oldest first. -/
def getAll {T : Type} (b : CircularBuffer T) : List (Option T) :=
  (List.range b.count).map fun i =>
    b.buffer.getD ((b.head + i) % b.capacity) none

/-- Embeds `clear()`: fresh array, `head = 0`, `count = 0`; capacity unchanged. -/
def clear {T : Type} (b : CircularBuffer T) : CircularBuffer T :=
  ⟨List.replicate b.capacity none, 0, 0, b.capacity⟩

/-- Embeds `get size()`. -/
def size {T : Type} (b : CircularBuffer T) : Nat := b.count

/-- Embeds `get maxSize()`. -/
def maxSize {T : Type} (b : CircularBuffer T) : Nat := b.capacity

/-- Push a whole sequence, first element first. -/
def pushAll {T : Type} (b : CircularBuffer T) (xs : List T) : CircularBuffer T :=
  xs.foldl push b

end CircularBuffer

/-! ### Well-formedness of buffer states

Every state reachable from the constructor satisfies this; it is what the
ring-arithmetic proofs need. -/

structure CircularBuffer.WF {T : Type} (b : CircularBuffer T) : Prop where
  cap_pos : 0 < b.capacity
  head_lt : b.head < b.capacity
  count_le : b.count ≤ b.capacity
  len_eq : b.buffer.length = b.capacity

namespace CircularBuffer

theorem create_ok_WF {T : Type} {c : Int} {b : CircularBuffer T}
    (h : create T c = Except.ok b) : b.WF := by
  unfold create at h
  split at h
  · exact absurd h (by simp)
  · rename_i hc
    cases h
    refine ⟨?_, ?_, ?_, ?_⟩ <;> simp [List.length_replicate]
    all_goals omega

theorem push_WF {T : Type} {b : CircularBuffer T} (hb : b.WF) (x : T) :
    (b.push x).WF := by
  unfold push
  rcases hb with ⟨h1, h2, h3, h4⟩
  dsimp only
  split
  · constructor <;> simp only [List.length_set] <;> omega
  · constructor <;> simp only [List.length_set]
    · omega
    · exact Nat.mod_lt _ h1
    · omega
    · omega

theorem push_capacity {T : Type} (b : CircularBuffer T) (x : T) :
    (b.push x).capacity = b.capacity := by
  unfold push; split <;> rfl

theorem clear_capacity {T : Type} (b : CircularBuffer T) :
    (b.clear).capacity = b.capacity := rfl

/-- Two offsets into the ring whose distance is positive and below the
capacity land on different slots. -/
theorem mod_add_ne {c h i j : Nat} (hc : 0 < c) (hij : i < j) (hd : j - i < c) :
    (h + i) % c ≠ (h + j) % c := by
  intro he
  have hmod : h + i ≡ h + j [MOD c] := he
  have hdvd : (c : ℤ) ∣ ((h + j : ℕ) : ℤ) - ((h + i : ℕ) : ℤ) :=
    (Nat.modEq_iff_dvd.mp hmod)
  have hdvd' : (c : ℤ) ∣ ((j : ℤ) - (i : ℤ)) := by
    have he2 : ((h + j : ℕ) : ℤ) - ((h + i : ℕ) : ℤ) = (j : ℤ) - (i : ℤ) := by
      push_cast; ring
    rwa [he2] at hdvd
  have h3 : (c : ℤ) ≤ (j : ℤ) - (i : ℤ) := Int.le_of_dvd (by omega) hdvd'
  omega

theorem getAll_length {T : Type} (b : CircularBuffer T) :
    (getAll b).length = b.count := by
  simp [getAll]

/-- Effect of one `push` on the chronological content. -/
theorem getAll_push {T : Type} {b : CircularBuffer T} (hb : b.WF) (x : T) :
    getAll (b.push x) =
      (if b.count < b.capacity then getAll b else (getAll b).drop 1) ++ [some x] := by
  rcases hb with ⟨h1, h2, h3, h4⟩
  unfold push
  dsimp only
  split
  case isTrue hlt =>
    unfold getAll
    dsimp only
    rw [List.range_succ, List.map_append, List.map_cons, List.map_nil]
    congr 1
    · apply List.map_congr_left
      intro i hi
      rw [List.mem_range] at hi
      have hne : (b.head + b.count) % b.capacity ≠ (b.head + i) % b.capacity :=
        (mod_add_ne h1 hi (by omega)).symm
      simp [List.getD_eq_getElem?_getD, List.getElem?_set_ne hne]
    · have hset : (b.head + b.count) % b.capacity < b.buffer.length := by
        rw [h4]; exact Nat.mod_lt _ h1
      simp [List.getD_eq_getElem?_getD, List.getElem?_set_self hset]
  case isFalse hge =>
    have hcount : b.count = b.capacity := by omega
    have hidx : (b.head + b.count) % b.capacity = b.head := by
      rw [hcount, Nat.add_mod_right, Nat.mod_eq_of_lt h2]
    unfold getAll
    dsimp only
    rw [hidx, hcount]
    obtain ⟨c', hc'⟩ : ∃ c', b.capacity = c' + 1 := ⟨b.capacity - 1, by omega⟩
    rw [hc']
    conv_rhs => rw [List.range_succ_eq_map]
    conv_lhs => rw [List.range_succ]
    rw [List.map_append, List.map_cons, List.map_nil, List.map_cons,
      List.drop_succ_cons, List.drop_zero, List.map_map]
    congr 1
    · apply List.map_congr_left
      intro i hi
      rw [List.mem_range] at hi
      have hmadd : ((b.head + 1) % (c' + 1) + i) % (c' + 1) = (b.head + (1 + i)) % (c' + 1) := by
        rw [Nat.mod_add_mod, Nat.add_assoc]
      have hne0 : (b.head + (1 + i)) % (c' + 1) ≠ b.head := by
        have h0 : (b.head + 0) % (c' + 1) ≠ (b.head + (1 + i)) % (c' + 1) :=
          mod_add_ne (by omega) (by omega) (by omega)
        have hh : (b.head + 0) % (c' + 1) = b.head := by
          rw [Nat.add_zero]; exact Nat.mod_eq_of_lt (by omega)
        rw [hh] at h0
        exact h0.symm
      simp only [Function.comp, hmadd, List.getD_eq_getElem?_getD,
        List.getElem?_set_ne hne0.symm]
      have harg : b.head + (1 + i) = b.head + i.succ := by omega
      rw [harg]
    · have hmadd : ((b.head + 1) % (c' + 1) + c') % (c' + 1) = b.head := by
        rw [Nat.mod_add_mod, Nat.add_assoc, Nat.add_comm 1 c', Nat.add_mod_right]
        exact Nat.mod_eq_of_lt (by omega)
      have hset : b.head < b.buffer.length := by rw [h4, hc']; exact hc' ▸ h2
      simp [hmadd, List.getD_eq_getElem?_getD, List.getElem?_set_self hset]

/-- Content after pushing a whole sequence: the last `capacity` elements of
old content followed by the new ones. -/
theorem getAll_pushAll {T : Type} (xs : List T) :
    ∀ {b : CircularBuffer T}, b.WF →
    getAll (pushAll b xs) =
      (getAll b ++ xs.map some).drop (b.count + xs.length - b.capacity) := by
  induction xs with
  | nil =>
      intro b hb
      have h3 := hb.count_le
      simp only [pushAll, List.foldl_nil, List.map_nil, List.append_nil, List.length_nil,
        Nat.add_zero]
      rw [Nat.sub_eq_zero_of_le h3, List.drop_zero]
  | cons x xs ih =>
      intro b hb
      have hwf' := push_WF hb x
      have hcap := push_capacity b x
      have hcnt : (b.push x).count = if b.count < b.capacity then b.count + 1 else b.count := by
        unfold push; dsimp only; split <;> rfl
      have hstep : pushAll b (x :: xs) = pushAll (b.push x) xs := rfl
      rw [hstep, ih hwf', getAll_push hb x, hcap, hcnt]
      have hlen := getAll_length b
      have hcle := hb.count_le
      have hpos := hb.cap_pos
      simp only [List.map_cons, List.length_cons]
      split
      case isTrue hlt =>
        rw [List.append_assoc, List.singleton_append,
          show b.count + 1 + xs.length - b.capacity
            = b.count + (xs.length + 1) - b.capacity from by omega]
      case isFalse hge =>
        have hceq : b.count = b.capacity := by omega
        have h1le : 1 ≤ (getAll b).length := by rw [hlen]; omega
        rw [List.append_assoc, List.singleton_append,
          show b.count + (xs.length + 1) - b.capacity = 1 + xs.length from by omega,
          show b.count + xs.length - b.capacity = xs.length from by omega,
          ← List.drop_drop, List.drop_append_of_le_length h1le]

/-- Lemma: `getLast` is the reversed chronological view truncated to `k`. -/
theorem getLast_eq_take_reverse {T : Type} (b : CircularBuffer T) (k : Nat) :
    getLast b k = ((getAll b).reverse).take k := by
  unfold getLast getAll
  conv_rhs => rw [← List.map_reverse, List.range_eq_range', List.reverse_range',
    ← List.map_take, ← List.map_take, List.take_range, List.map_map]
  apply List.map_congr_left
  intro i hi
  rw [List.mem_range] at hi
  simp only [Function.comp]
  have harg : b.head + b.count - 1 - i = b.head + (0 + b.count - 1 - i) := by omega
  rw [harg]

theorem create_ok_eq {T : Type} {c : Int} {b : CircularBuffer T}
    (h : create T c = Except.ok b) :
    b = ⟨List.replicate c.toNat none, 0, 0, c.toNat⟩ ∧ 0 < c := by
  unfold create at h
  split at h
  · exact absurd h (by simp)
  · rename_i hc
    cases h
    exact ⟨rfl, by omega⟩

end CircularBuffer

/-! ## Claims C2 and C9 -/

/-- C2: for every capacity `c > 0` and every pushed sequence `xs` of length
`n`, `getAll()` has length `min n c` and equals the most recent `min n c`
pushed items oldest-first, and for every `k`, `getLast k` is the newest-first
view truncated to `k` items (so `k > size` returns all current items). -/
theorem C2_ring_buffer_getAll_getLast (c : Int) (b0 : CircularBuffer Nat)
    (h : CircularBuffer.create Nat c = Except.ok b0) (xs : List Nat) :
    ((b0.pushAll xs).getAll).length = min xs.length c.toNat ∧
    (b0.pushAll xs).getAll = (xs.drop (xs.length - c.toNat)).map some ∧
    ∀ k, (b0.pushAll xs).getLast k
      = (((b0.pushAll xs).getAll).reverse).take k ∧
        ((b0.pushAll xs).getLast k).length = min k ((b0.pushAll xs).size) := by
  obtain ⟨hb0, hc⟩ := CircularBuffer.create_ok_eq h
  have hwf : b0.WF := CircularBuffer.create_ok_WF h
  have hcnt : b0.count = 0 := by rw [hb0]
  have hcap : b0.capacity = c.toNat := by rw [hb0]
  have hall : (b0.pushAll xs).getAll
      = (xs.drop (xs.length - c.toNat)).map some := by
    rw [CircularBuffer.getAll_pushAll xs hwf]
    have hempty : b0.getAll = [] := by
      rw [hb0]; rfl
    rw [hempty, List.nil_append, hcnt, hcap, Nat.zero_add, ← List.map_drop]
  refine ⟨?_, hall, ?_⟩
  · rw [hall]
    simp only [List.length_map, List.length_drop]
    omega
  · intro k
    refine ⟨CircularBuffer.getLast_eq_take_reverse _ k, ?_⟩
    rw [CircularBuffer.getLast_eq_take_reverse _ k]
    simp only [List.length_take, List.length_reverse, CircularBuffer.getAll_length]
    rfl

/-- Witness for C2 at the spec's example: capacity 3, push 1..10. -/
theorem C2_ring_buffer_witness :
    CircularBuffer.getAll
        (CircularBuffer.pushAll
          (⟨List.replicate 3 none, 0, 0, 3⟩ : CircularBuffer Nat)
          [1, 2, 3, 4, 5, 6, 7, 8, 9, 10])
      = [some 8, some 9, some 10] ∧
    CircularBuffer.getLast
        (CircularBuffer.pushAll
          (⟨List.replicate 3 none, 0, 0, 3⟩ : CircularBuffer Nat)
          [1, 2, 3, 4, 5, 6, 7, 8, 9, 10]) 2
      = [some 10, some 9] := by
  have h := C2_ring_buffer_getAll_getLast 3
    (⟨List.replicate 3 none, 0, 0, 3⟩ : CircularBuffer Nat) rfl
    [1, 2, 3, 4, 5, 6, 7, 8, 9, 10]
  constructor
  · rw [h.2.1]; rfl
  · rw [(h.2.2 2).1, h.2.1]; rfl

/-- C9: constructing a `CircularBuffer` with capacity `≤ 0` (zero or
negative) fails with the configuration error; with capacity `> 0` it
succeeds with that capacity, which `push` and `clear` never change. -/
theorem C9_ring_buffer_create (c : Int) :
    (c ≤ 0 → CircularBuffer.create Nat c
        = Except.error "Capacity must be positive") ∧
    (0 < c → ∃ b : CircularBuffer Nat,
      CircularBuffer.create Nat c = Except.ok b ∧ b.capacity = c.toNat ∧
        0 < b.capacity ∧
        (∀ x : Nat, (b.push x).capacity = b.capacity) ∧
        (b.clear).capacity = b.capacity) := by
  constructor
  · intro hle
    unfold CircularBuffer.create
    rw [if_pos hle]
  · intro hpos
    refine ⟨⟨List.replicate c.toNat none, 0, 0, c.toNat⟩, ?_, rfl,
      by show 0 < c.toNat; omega, ?_, rfl⟩
    · unfold CircularBuffer.create
      rw [if_neg (by omega)]
    · intro x
      exact CircularBuffer.push_capacity _ x

/-- Witness for C9 at capacities 0, -5 and 3. -/
theorem C9_ring_buffer_witness :
    CircularBuffer.create Nat 0 = Except.error "Capacity must be positive" ∧
    CircularBuffer.create Nat (-5) = Except.error "Capacity must be positive" ∧
    ∃ b : CircularBuffer Nat,
      CircularBuffer.create Nat 3 = Except.ok b ∧ b.capacity = 3 ∧
        0 < b.capacity ∧
        (∀ x : Nat, (b.push x).capacity = b.capacity) ∧
        (b.clear).capacity = b.capacity :=
  ⟨(C9_ring_buffer_create 0).1 (by decide),
   (C9_ring_buffer_create (-5)).1 (by decide),
   (C9_ring_buffer_create 3).2 (by decide)⟩

/-! ## WireClient command correlation

`PageSession.sendCommand` (src/daemon/page-session.ts) and
`CDPContext.sendCommand` (src/context.ts) are the same promise pattern:
`const id = this.messageId++`, a per-command `messageHandler` registered on
the socket that settles the promise when a frame with a matching `id`
arrives, and a `setTimeout` (10000 ms resp. 30000 ms) that deregisters the
handler and rejects with `Command timeout: <method>`.

We embed the connection as a `WireState`: the id counter, the list of still
registered handlers (the correlation entries, each remembering its method and
its timer's duration), and the log of settled promises. -/

structure CDPFrame where
  id : Option Nat
  method : Option String
  result : Option String
  /-- Field `message.error`, carrying its `message` field (`""` for a missing or
  empty message, which is falsy in JS). -/
  error : Option String
deriving Repr, DecidableEq

inductive CmdOutcome where
  | resolved (result : Option String)
  | rejected (msg : String)
deriving Repr, DecidableEq

/-- How `messageHandler` settles the promise for a matched frame:
`message.error` present → `reject(message.error.message || 'CDP command
failed')`, else `resolve(message.result)`. -/
def outcomeOf (msg : CDPFrame) : CmdOutcome :=
  match msg.error with
  | some e => CmdOutcome.rejected (if e = "" then "CDP command failed" else e)
  | none => CmdOutcome.resolved msg.result

structure PendingEntry where
  id : Nat
  method : String
  timeoutMs : Nat
deriving Repr, DecidableEq

structure WireState where
  messageId : Nat
  pending : List PendingEntry
  resolved : List (Nat × CmdOutcome)
deriving Repr, DecidableEq

/-- Fresh connection: `private messageId = 1`, no handlers. -/
def WireState.start : WireState := ⟨1, [], []⟩

/-- Embeds `sendCommand(method, params)` with a given timeout constant:
`const id = this.messageId++`, register the handler, send the frame.
Returns the assigned id and the new connection state. -/
def sendCommandWith (timeoutMs : Nat) (st : WireState) (method : String) :
    Nat × WireState :=
  (st.messageId,
   { st with
       messageId := st.messageId + 1,
       pending := st.pending ++ [⟨st.messageId, method, timeoutMs⟩] })

/-- Constant `setTimeout(..., 10000)` in `PageSession.sendCommand`. -/
def PAGE_SESSION_COMMAND_TIMEOUT_MS : Nat := 10000

/-- Constant `setTimeout(..., 30000)` in `CDPContext.sendCommand`. -/
def CDP_CONTEXT_COMMAND_TIMEOUT_MS : Nat := 30000

def pageSessionSendCommand : WireState → String → Nat × WireState :=
  sendCommandWith PAGE_SESSION_COMMAND_TIMEOUT_MS

def cdpContextSendCommand : WireState → String → Nat × WireState :=
  sendCommandWith CDP_CONTEXT_COMMAND_TIMEOUT_MS

/-- Arrival of one frame on the socket: every registered handler parses it;
a handler whose id matches settles its promise via `outcomeOf` and
deregisters itself (`ws.off('message', messageHandler)`); the others are
untouched. -/
def deliverFrame (st : WireState) (msg : CDPFrame) : WireState :=
  match msg.id with
  | none => st
  | some i =>
      { st with
          pending := st.pending.filter (fun e => e.id ≠ i),
          resolved := st.resolved ++
            (st.pending.filter (fun e => e.id = i)).map
              (fun e => (e.id, outcomeOf msg)) }

/-- Expiry of the timer registered for id `i`: the handler is deregistered
and the caller rejected with ``Command timeout: ${method}``. -/
def fireTimeout (st : WireState) (i : Nat) : WireState :=
  { st with
      pending := st.pending.filter (fun e => e.id ≠ i),
      resolved := st.resolved ++
        (st.pending.filter (fun e => e.id = i)).map
          (fun e => (e.id, CmdOutcome.rejected ("Command timeout: " ++ e.method))) }

def sendAll (timeoutMs : Nat) (st : WireState) (ms : List String) : WireState :=
  ms.foldl (fun s m => (sendCommandWith timeoutMs s m).2) st

def deliverAll (st : WireState) (fs : List CDPFrame) : WireState :=
  fs.foldl deliverFrame st

/-- After a burst of sends the counter has advanced by the number of sends,
the new correlation entries carry consecutive ids starting at the old
counter, and nothing has been settled. -/
theorem sendAll_spec (t : Nat) (ms : List String) : ∀ st : WireState,
    (sendAll t st ms).messageId = st.messageId + ms.length ∧
    (sendAll t st ms).pending = st.pending ++
      ((List.range' st.messageId ms.length).zip ms).map
        (fun p => ⟨p.1, p.2, t⟩) ∧
    (sendAll t st ms).resolved = st.resolved := by
  induction ms with
  | nil => intro st; simp [sendAll]
  | cons m ms ih =>
      intro st
      have hstep : sendAll t st (m :: ms)
          = sendAll t ⟨st.messageId + 1,
              st.pending ++ [⟨st.messageId, m, t⟩], st.resolved⟩ ms := rfl
      obtain ⟨ih1, ih2, ih3⟩ := ih ⟨st.messageId + 1,
        st.pending ++ [⟨st.messageId, m, t⟩], st.resolved⟩
      refine ⟨?_, ?_, ?_⟩
      · rw [hstep, ih1]; simp; omega
      · rw [hstep, ih2]
        simp only [List.length_cons, List.range'_succ, List.zip_cons_cons,
          List.map_cons, List.append_assoc, List.singleton_append]
      · rw [hstep, ih3]

/-! ## Claims C1 and C3 -/

/-- C1: on one connection, `sendCommand` hands out ids from the counter
starting at 1, strictly increasing and never reused (after any burst of
sends the outstanding ids are exactly `1, ..., n`), and correlation is
order-independent: with commands 1, 2, 3 outstanding and response frames
arriving in the order 3, 2, 1, each caller is settled with exactly the
outcome (`result`, or rejection with the CDP `error`) of the frame bearing
its own id. Stated for any timeout configuration `t`. -/
theorem C1_sendCommand_correlation (t : Nat) :
    (∀ ms : List String,
      (sendAll t WireState.start ms).messageId = 1 + ms.length ∧
      (sendAll t WireState.start ms).pending.map PendingEntry.id
        = List.range' 1 ms.length ∧
      ((sendAll t WireState.start ms).pending.map PendingEntry.id).Pairwise (· < ·)) ∧
    ∀ (m1 m2 m3 : String) (f1 f2 f3 : CDPFrame),
      f1.id = some 1 → f2.id = some 2 → f3.id = some 3 →
      (sendAll t WireState.start [m1, m2, m3]).pending.map PendingEntry.id
          = [1, 2, 3] ∧
      deliverAll (sendAll t WireState.start [m1, m2, m3]) [f3, f2, f1]
        = ⟨4, [], [(3, outcomeOf f3), (2, outcomeOf f2), (1, outcomeOf f1)]⟩ := by
  constructor
  · intro ms
    obtain ⟨h1, h2, h3⟩ := sendAll_spec t ms WireState.start
    have hlen : (List.range' 1 ms.length).length = ms.length := by
      simp
    have hmap : (sendAll t WireState.start ms).pending.map PendingEntry.id
        = List.range' 1 ms.length := by
      rw [h2]
      show (((List.range' 1 ms.length).zip ms).map
        (fun p => (⟨p.1, p.2, t⟩ : PendingEntry))).map PendingEntry.id
          = List.range' 1 ms.length
      rw [List.map_map]
      have : ((List.range' 1 ms.length).zip ms).map
          (PendingEntry.id ∘ fun p => (⟨p.1, p.2, t⟩ : PendingEntry))
            = ((List.range' 1 ms.length).zip ms).map Prod.fst := rfl
      rw [this, List.map_fst_zip]
      rw [hlen]
    have h1' : (sendAll t WireState.start ms).messageId = 1 + ms.length := by
      rw [h1]; rfl
    refine ⟨h1', hmap, ?_⟩
    rw [hmap]
    exact List.pairwise_lt_range' 1 ms.length
  · intro m1 m2 m3 f1 f2 f3 h1 h2 h3
    constructor
    · rfl
    · show deliverFrame (deliverFrame (deliverFrame _ f3) f2) f1 = _
      simp only [deliverFrame, h1, h2, h3]
      simp [sendAll, sendCommandWith, WireState.start, List.filter]

/-- Witness for C1: three concrete commands, responses delivered 3, 2, 1. -/
theorem C1_sendCommand_correlation_witness :
    deliverAll (sendAll 10000 WireState.start ["Runtime.enable", "Network.enable", "Page.navigate"])
        [⟨some 3, none, some "r3", none⟩, ⟨some 2, none, none, some "boom"⟩,
         ⟨some 1, none, some "r1", none⟩]
      = ⟨4, [], [(3, CmdOutcome.resolved (some "r3")),
                 (2, CmdOutcome.rejected "boom"),
                 (1, CmdOutcome.resolved (some "r1"))]⟩ := by
  have h := (C1_sendCommand_correlation 10000).2
    "Runtime.enable" "Network.enable" "Page.navigate"
    ⟨some 1, none, some "r1", none⟩ ⟨some 2, none, none, some "boom"⟩
    ⟨some 3, none, some "r3", none⟩ rfl rfl rfl
  rw [h.2]
  rfl

/-- C3: a command whose response never arrives is settled by its timer:
`PageSession.sendCommand` registers its correlation entry with a 10000 ms
deadline (daemon-held session) and `CDPContext.sendCommand` with a 30000 ms
deadline (direct one-off connection); when the timer for id `i` fires, the
caller is rejected with ``Command timeout: ${method}``, no correlation
entry for `i` remains, and a late-arriving frame bearing id `i` leaves the
connection state unchanged. -/
theorem C3_command_timeout (st : WireState) (m : String) :
    (pageSessionSendCommand st m).2.pending
        = st.pending ++ [⟨st.messageId, m, 10000⟩] ∧
    (cdpContextSendCommand st m).2.pending
        = st.pending ++ [⟨st.messageId, m, 30000⟩] ∧
    ∀ i : Nat,
      (fireTimeout st i).pending.filter (fun e => e.id = i) = [] ∧
      (fireTimeout st i).resolved = st.resolved ++
        (st.pending.filter (fun e => e.id = i)).map
          (fun e => (e.id, CmdOutcome.rejected ("Command timeout: " ++ e.method))) ∧
      ∀ msg : CDPFrame, msg.id = some i →
        deliverFrame (fireTimeout st i) msg = fireTimeout st i := by
  refine ⟨rfl, rfl, ?_⟩
  intro i
  have hnone : ∀ l : List PendingEntry,
      (l.filter (fun e => e.id ≠ i)).filter (fun e => e.id = i) = [] := by
    intro l
    induction l with
    | nil => rfl
    | cons e l ihl =>
        by_cases he : e.id = i <;> simp [List.filter, he, ihl]
  refine ⟨hnone st.pending, rfl, ?_⟩
  intro msg hmsg
  show deliverFrame _ msg = _
  rw [deliverFrame, hmsg]
  have hkeep : ((fireTimeout st i).pending.filter (fun e => e.id ≠ i))
      = (fireTimeout st i).pending := by
    show ((st.pending.filter (fun e => e.id ≠ i)).filter (fun e => e.id ≠ i))
        = st.pending.filter (fun e => e.id ≠ i)
    rw [List.filter_filter]
    apply List.filter_congr
    intro e _
    by_cases he : e.id = i <;> simp [he]
  show ({ fireTimeout st i with
      pending := (fireTimeout st i).pending.filter (fun e => e.id ≠ i),
      resolved := (fireTimeout st i).resolved ++
        ((fireTimeout st i).pending.filter (fun e => e.id = i)).map
          (fun e => (e.id, outcomeOf msg)) } : WireState) = fireTimeout st i
  rw [hkeep]
  have hfired : ((fireTimeout st i).pending.filter (fun e => e.id = i)) = [] :=
    hnone st.pending
  rw [hfired, List.map_nil, List.append_nil]

/-- Witness for C3: a single pending `Page.navigate` entry times out and the
late frame for its id is then ignored. -/
theorem C3_command_timeout_witness :
    (fireTimeout ⟨2, [⟨1, "Page.navigate", 10000⟩], []⟩ 1).resolved
        = [(1, CmdOutcome.rejected "Command timeout: Page.navigate")] ∧
    deliverFrame (fireTimeout ⟨2, [⟨1, "Page.navigate", 10000⟩], []⟩ 1)
        ⟨some 1, none, some "late", none⟩
      = fireTimeout ⟨2, [⟨1, "Page.navigate", 10000⟩], []⟩ 1 := by
  have h := C3_command_timeout ⟨2, [⟨1, "Page.navigate", 10000⟩], []⟩ "X"
  constructor
  · rw [(h.2.2 1).2.1]; rfl
  · exact (h.2.2 1).2.2 ⟨some 1, none, some "late", none⟩ rfl

/-! ## PageSession event handling (src/daemon/page-session.ts)

`handleMessage` normalizes `Runtime.consoleAPICalled` / `Runtime.exceptionThrown`
into `ConsoleMessage`s (next `consoleId`, pushed into `consoleBuffer` and
stored in `consoleById`) and the three network events into `NetworkRequest`
merge-patches via `updateNetworkRequest`.  `Date.now()` is passed in as the
explicit `now` argument of the step. -/

structure StackFrame where
  functionName : String
  url : String
  lineNumber : Nat
  columnNumber : Nat
deriving Repr, DecidableEq

/-- A CDP remote object as consumed by the console formatter: its `value`
(already a string via `String(arg.value)`), its `description`, and its JSON
serialization (used when both are `undefined`). -/
structure RemoteObject where
  value : Option String
  description : Option String
  json : String
deriving Repr, DecidableEq

/-- One console argument's text:
`arg.value !== undefined ? String(arg.value) : arg.description !== undefined
? arg.description : JSON.stringify(arg)`. -/
def remoteObjectText (a : RemoteObject) : String :=
  match a.value with
  | some v => v
  | none =>
      match a.description with
      | some d => d
      | none => a.json

structure ConsoleMessage where
  id : Nat
  type : String
  timestamp : Nat
  text : String
  source : String
  line : Option Nat
  url : Option String
  args : Option (List RemoteObject)
  stackTrace : Option (List StackFrame)
deriving Repr, DecidableEq

structure NetworkRequest where
  id : String
  url : String
  method : String
  status : Option Nat
  type : Option String
  size : Option Nat
  timestamp : Nat
  requestHeaders : Option (List (String × String))
  responseHeaders : Option (List (String × String))
deriving Repr, DecidableEq

/-- A `Partial<NetworkRequest>` patch. -/
structure NetworkPatch where
  url : Option String
  method : Option String
  timestamp : Option Nat
  type : Option String
  status : Option Nat
  size : Option Nat
  requestHeaders : Option (List (String × String))
  responseHeaders : Option (List (String × String))
deriving Repr, DecidableEq

/-- JS `Map.set`: replace in place when the key exists (preserving insertion
order), else append.  Map keys are unique, so replacing the first occurrence
is replacing the occurrence. -/
def mapSet {α β : Type} [BEq α] : List (α × β) → α → β → List (α × β)
  | [], k, v => [(k, v)]
  | p :: m, k, v => if p.1 == k then (k, v) :: m else p :: mapSet m k v

/-- JS `x || y` on an optional number (`0` and `undefined` are falsy). -/
def jsOrNat (v : Option Nat) (dflt : Nat) : Nat :=
  match v with
  | some t => if t = 0 then dflt else t
  | none => dflt

/-- Nullish chaining of two optional values: `a ?? b`. -/
def nullish {α : Type} (a b : Option α) : Option α :=
  match a with
  | some x => some x
  | none => b

/-- Embeds `stackTrace?.callFrames?.map(f => ({functionName: f.functionName ||
'(anonymous)', ...}))`. -/
def buildFrames (tr : Option (List StackFrame)) : Option (List StackFrame) :=
  tr.map (List.map fun f =>
    { f with functionName :=
        if f.functionName = "" then "(anonymous)" else f.functionName })

/-- Embeds `PageSession.updateNetworkRequest(requestId, patch)`: build `next` with
each field `patch.f ?? current?.f ?? default`, store it, return it. -/
def updateNetworkRequest (m : List (String × NetworkRequest)) (now : Nat)
    (requestId : String) (patch : NetworkPatch) :
    NetworkRequest × List (String × NetworkRequest) :=
  let current := m.lookup requestId
  let next : NetworkRequest :=
    { id := requestId
      url := (nullish patch.url (current.map NetworkRequest.url)).getD ""
      method := (nullish patch.method (current.map NetworkRequest.method)).getD "GET"
      timestamp := (nullish patch.timestamp (current.map NetworkRequest.timestamp)).getD now
      type := nullish patch.type (current.bind NetworkRequest.type)
      status := nullish patch.status (current.bind NetworkRequest.status)
      size := nullish patch.size (current.bind NetworkRequest.size)
      requestHeaders := nullish patch.requestHeaders
        (current.bind NetworkRequest.requestHeaders)
      responseHeaders := nullish patch.responseHeaders
        (current.bind NetworkRequest.responseHeaders) }
  (next, mapSet m requestId next)

/-- The CDP push events `PageSession.handleMessage` reacts to, with the
fields it reads. -/
inductive SessionEvent where
  | consoleAPICalled (type : String) (args : List RemoteObject)
      (timestamp : Option Nat) (stackTrace : Option (List StackFrame))
  | exceptionThrown (timestamp : Option Nat) (text : String)
      (lineNumber : Option Nat) (url : Option String)
      (stackTrace : Option (List StackFrame))
  | requestWillBeSent (requestId : String) (url : String) (method : String)
      (headers : List (String × String)) (timestamp : Nat) (type : Option String)
  | responseReceived (requestId : String) (respUrl : String) (status : Nat)
      (respHeaders : List (String × String)) (type : Option String)
  | loadingFinished (requestId : String) (encodedDataLength : Nat)
deriving Repr, DecidableEq

structure SessionState where
  consoleId : Nat
  consoleBuffer : CircularBuffer ConsoleMessage
  consoleById : List (Nat × ConsoleMessage)
  networkBuffer : CircularBuffer NetworkRequest
  networkRequests : List (String × NetworkRequest)
deriving Repr

/-- Fresh `PageSession` with the given buffer capacity: `consoleId = 1`,
empty buffers and indices. -/
def SessionState.start (bufferSize : Nat) : SessionState :=
  ⟨1, ⟨List.replicate bufferSize none, 0, 0, bufferSize⟩, [],
      ⟨List.replicate bufferSize none, 0, 0, bufferSize⟩, []⟩

/-- Embeds `PageSession.handleMessage` on one event. -/
def handleEvent (now : Nat) (st : SessionState) (ev : SessionEvent) :
    SessionState :=
  match ev with
  | .consoleAPICalled ty args ts tr =>
      let msg : ConsoleMessage :=
        { id := st.consoleId
          type := ty
          timestamp := jsOrNat ts now
          text := String.intercalate " " (args.map remoteObjectText)
          source := "console-api"
          line := none
          url := none
          args := some args
          stackTrace := buildFrames tr }
      { st with
          consoleId := st.consoleId + 1
          consoleBuffer := st.consoleBuffer.push msg
          consoleById := mapSet st.consoleById msg.id msg }
  | .exceptionThrown ts text line url tr =>
      let msg : ConsoleMessage :=
        { id := st.consoleId
          type := "error"
          timestamp := jsOrNat ts now
          text := text
          source := "exception"
          line := line
          url := url
          args := none
          stackTrace := buildFrames tr }
      { st with
          consoleId := st.consoleId + 1
          consoleBuffer := st.consoleBuffer.push msg
          consoleById := mapSet st.consoleById msg.id msg }
  | .requestWillBeSent rid url meth headers ts ty =>
      let r := updateNetworkRequest st.networkRequests now rid
        ⟨some url, some meth, some (ts * 1000), ty, none, none, some headers, none⟩
      { st with
          networkRequests := r.2
          networkBuffer := st.networkBuffer.push r.1 }
  | .responseReceived rid rurl status rheaders ty =>
      let r := updateNetworkRequest st.networkRequests now rid
        ⟨if rurl = "" then none else some rurl, none, none, ty, some status,
          none, none, some rheaders⟩
      { st with networkRequests := r.2 }
  | .loadingFinished rid len =>
      let r := updateNetworkRequest st.networkRequests now rid
        ⟨none, none, none, none, none, some len, none, none⟩
      { st with networkRequests := r.2 }

/-- Embeds `PageSession.clearLogs()`. -/
def clearLogs (st : SessionState) : SessionState :=
  { st with
      consoleBuffer := st.consoleBuffer.clear
      consoleById := []
      networkBuffer := st.networkBuffer.clear
      networkRequests := [] }

/-- Embeds `PageSession.getConsoleMessage(id)`. -/
def getConsoleMessage (st : SessionState) (i : Nat) : Option ConsoleMessage :=
  st.consoleById.lookup i

/-- One operation performed on a live session: an incoming event (with the
wall clock at that moment) or a `clearLogs` call. -/
inductive SessionOp where
  | event (now : Nat) (ev : SessionEvent)
  | clear
deriving Repr, DecidableEq

def stepOp (st : SessionState) (op : SessionOp) : SessionState :=
  match op with
  | .event now ev => handleEvent now st ev
  | .clear => clearLogs st

def runOps (st : SessionState) (ops : List SessionOp) : SessionState :=
  ops.foldl stepOp st

def isConsoleEvent : SessionEvent → Bool
  | .consoleAPICalled _ _ _ _ => true
  | .exceptionThrown _ _ _ _ _ => true
  | _ => false

def countConsole (ops : List SessionOp) : Nat :=
  (ops.filter (fun op =>
    match op with
    | .event _ ev => isConsoleEvent ev
    | .clear => false)).length

/-- The console-message ids assigned while running `ops` from `st`, in
order of assignment. -/
def assignedIds (st : SessionState) : List SessionOp → List Nat
  | [] => []
  | op :: ops =>
      (match op with
       | .event _ ev => if isConsoleEvent ev then [st.consoleId] else []
       | .clear => []) ++ assignedIds (stepOp st op) ops

/-! ### Map lemmas -/

theorem lookup_mapSet {α β : Type} [BEq α] [LawfulBEq α]
    (m : List (α × β)) (k k' : α) (v : β) :
    (mapSet m k v).lookup k' = if k' == k then some v else m.lookup k' := by
  induction m with
  | nil =>
      simp only [mapSet, List.lookup]
      cases h : k' == k <;> simp [h]
  | cons p m ih =>
      rcases p with ⟨a, b⟩
      by_cases hp : a = k
      · subst hp
        simp only [mapSet, beq_self_eq_true, if_true, List.lookup]
        by_cases hk : k' = a
        · subst hk; simp
        · have hk' : (k' == a) = false := by simp [hk]
          simp [List.lookup, hk']
      · have hp' : (a == k) = false := by simp [hp]
        simp only [mapSet, hp', Bool.false_eq_true, if_false, List.lookup]
        by_cases hk : k' = a
        · subst hk
          simp [List.lookup, hp']
        · have hk' : (k' == a) = false := by simp [hk]
          simp [List.lookup, hk', ih]

theorem mem_mapSet {α β : Type} [BEq α] (m : List (α × β)) (k : α) (v : β) :
    ∀ q ∈ mapSet m k v, q = (k, v) ∨ q ∈ m := by
  induction m with
  | nil => simp [mapSet]
  | cons p m ih =>
      intro q hq
      simp only [mapSet] at hq
      split at hq
      · rcases List.mem_cons.mp hq with hq | hq
        · exact Or.inl hq
        · exact Or.inr (List.mem_cons_of_mem _ hq)
      · rcases List.mem_cons.mp hq with hq | hq
        · exact Or.inr (hq ▸ List.mem_cons_self _ _)
        · rcases ih q hq with h | h
          · exact Or.inl h
          · exact Or.inr (List.mem_cons_of_mem _ h)

theorem lookup_some_mem {α β : Type} [BEq α] [LawfulBEq α]
    {m : List (α × β)} {k : α} {v : β} (h : m.lookup k = some v) : (k, v) ∈ m := by
  induction m with
  | nil => simp [List.lookup] at h
  | cons p m ih =>
      rcases p with ⟨a, b⟩
      simp only [List.lookup] at h
      by_cases hk : k = a
      · subst hk
        simp only [beq_self_eq_true] at h
        cases h
        exact List.mem_cons_self _ _
      · have hk' : (k == a) = false := by simp [hk]
        rw [hk'] at h
        exact List.mem_cons_of_mem _ (ih h)

/-! ### Console id counter (C8) -/

theorem stepOp_consoleId (st : SessionState) (op : SessionOp) :
    (stepOp st op).consoleId = st.consoleId +
      (match op with
       | .event _ ev => if isConsoleEvent ev then 1 else 0
       | .clear => 0) := by
  cases op with
  | clear => rfl
  | event now ev => cases ev <;> rfl

theorem countConsole_cons (op : SessionOp) (ops : List SessionOp) :
    countConsole (op :: ops) =
      (match op with
       | .event _ ev => if isConsoleEvent ev then 1 else 0
       | .clear => 0) + countConsole ops := by
  cases op with
  | clear => simp [countConsole, List.filter]
  | event now ev =>
      cases hev : isConsoleEvent ev <;>
        simp [countConsole, List.filter, hev] <;> omega

theorem assignedIds_spec (ops : List SessionOp) : ∀ st : SessionState,
    assignedIds st ops = List.range' st.consoleId (countConsole ops) := by
  induction ops with
  | nil => intro st; simp [assignedIds, countConsole]
  | cons op ops ih =>
      intro st
      rw [countConsole_cons]
      cases op with
      | clear =>
          simp only [assignedIds, List.nil_append, ih, stepOp_consoleId]
          rw [Nat.add_zero, Nat.zero_add]
      | event now ev =>
          cases hev : isConsoleEvent ev
          · simp only [assignedIds, hev, Bool.false_eq_true, if_false,
              List.nil_append, ih, stepOp_consoleId]
            rw [Nat.add_zero, Nat.zero_add]
          · simp only [assignedIds, hev, if_true, List.singleton_append, ih,
              stepOp_consoleId]
            rw [Nat.add_comm 1 (countConsole ops), List.range'_succ]

/-- C8: for every `PageSession`, console-message ids are session-scoped,
start at 1 (`consoleId = 1` at construction), and across every interleaving
of `Runtime.consoleAPICalled` / `Runtime.exceptionThrown` with other events
and `clearLogs` calls, the assigned ids are exactly `1, 2, ..., k` in
order — strictly increasing and never reused; `clearLogs` does not reset
the counter. -/
theorem C8_console_id_monotonic (bufferSize : Nat) (ops : List SessionOp) :
    (SessionState.start bufferSize).consoleId = 1 ∧
    assignedIds (SessionState.start bufferSize) ops
      = List.range' 1 (countConsole ops) ∧
    (assignedIds (SessionState.start bufferSize) ops).Pairwise (· < ·) ∧
    (∀ st : SessionState, (clearLogs st).consoleId = st.consoleId) := by
  refine ⟨rfl, assignedIds_spec ops _, ?_, fun st => rfl⟩
  rw [assignedIds_spec ops _]
  exact List.pairwise_lt_range' _ _

/-! ### Console detail index retention (C10) -/

/-- Invariant of every reachable session state: every key in `consoleById`
was assigned by a past console event, hence is below the counter. -/
def ConsoleIdsBelow (st : SessionState) : Prop :=
  ∀ p ∈ st.consoleById, p.1 < st.consoleId

theorem consoleIdsBelow_start (bufferSize : Nat) :
    ConsoleIdsBelow (SessionState.start bufferSize) := by
  intro p hp
  simp [SessionState.start] at hp

theorem consoleIdsBelow_stepOp {st : SessionState} (h : ConsoleIdsBelow st)
    (op : SessionOp) : ConsoleIdsBelow (stepOp st op) := by
  cases op with
  | clear =>
      intro p hp
      simp [stepOp, clearLogs] at hp
  | event now ev =>
      cases ev with
      | consoleAPICalled ty args ts tr =>
          intro p hp
          rcases mem_mapSet _ _ _ p hp with hq | hq
          · subst hq
            show st.consoleId < st.consoleId + 1
            omega
          · have := h p hq
            show p.1 < st.consoleId + 1
            omega
      | exceptionThrown ts text line url tr =>
          intro p hp
          rcases mem_mapSet _ _ _ p hp with hq | hq
          · subst hq
            show st.consoleId < st.consoleId + 1
            omega
          · have := h p hq
            show p.1 < st.consoleId + 1
            omega
      | requestWillBeSent rid url meth headers ts ty => exact h
      | responseReceived rid rurl status rheaders ty => exact h
      | loadingFinished rid len => exact h

/-- Any entry of the detail index survives any single non-`clearLogs`
operation. -/
theorem getConsoleMessage_preserved_step {st : SessionState}
    (h : ConsoleIdsBelow st) (op : SessionOp) (hop : op ≠ SessionOp.clear) :
    ∀ i m, getConsoleMessage st i = some m →
      getConsoleMessage (stepOp st op) i = some m := by
  intro i m hm
  cases op with
  | clear => exact absurd rfl hop
  | event now ev =>
      have hlt : i < st.consoleId := by
        have hmem := lookup_some_mem hm
        exact h (i, m) hmem
      have hne : (i == st.consoleId) = false := by
        simp only [beq_eq_false_iff_ne, ne_eq]
        omega
      cases ev with
      | consoleAPICalled ty args ts tr =>
          show (mapSet st.consoleById st.consoleId _).lookup i = some m
          rw [lookup_mapSet, hne]
          exact hm
      | exceptionThrown ts text line url tr =>
          show (mapSet st.consoleById st.consoleId _).lookup i = some m
          rw [lookup_mapSet, hne]
          exact hm
      | requestWillBeSent rid url meth headers ts ty => exact hm
      | responseReceived rid rurl status rheaders ty => exact hm
      | loadingFinished rid len => exact hm

theorem getConsoleMessage_preserved_run (ops : List SessionOp)
    (hnc : SessionOp.clear ∉ ops) :
    ∀ st : SessionState, ConsoleIdsBelow st →
    ∀ i m, getConsoleMessage st i = some m →
      getConsoleMessage (runOps st ops) i = some m := by
  induction ops with
  | nil => intro st _ i m hm; exact hm
  | cons op ops ih =>
      intro st hwf i m hm
      have hop : op ≠ SessionOp.clear := by
        intro hop
        exact hnc (hop ▸ List.mem_cons_self _ _)
      have hnc' : SessionOp.clear ∉ ops := fun hmem =>
        hnc (List.mem_cons_of_mem _ hmem)
      exact ih hnc' (stepOp st op) (consoleIdsBelow_stepOp hwf op) i m
        (getConsoleMessage_preserved_step hwf op hop i m hm)

/-- C10: every console message a `PageSession` has recorded stays
retrievable via `getConsoleMessage(id)` as long as `clearLogs` has not been
called since — regardless of how many later events have evicted it from the
bounded `consoleBuffer` — and no operation other than `clearLogs` removes
entries from the `consoleById` index. -/
theorem C10_console_detail_retention (st : SessionState)
    (hwf : ConsoleIdsBelow st) (now : Nat) (ev : SessionEvent)
    (hev : isConsoleEvent ev = true) (ops : List SessionOp)
    (hnc : SessionOp.clear ∉ ops) :
    (∃ m : ConsoleMessage, m.id = st.consoleId ∧
      getConsoleMessage (handleEvent now st ev) st.consoleId = some m ∧
      getConsoleMessage (runOps (handleEvent now st ev) ops) st.consoleId
        = some m) ∧
    (∀ op : SessionOp, op ≠ SessionOp.clear → ∀ i m,
      getConsoleMessage st i = some m →
      getConsoleMessage (stepOp st op) i = some m) ∧
    (∀ bufferSize : Nat, ConsoleIdsBelow (SessionState.start bufferSize)) ∧
    (∀ (st' : SessionState) (op : SessionOp), ConsoleIdsBelow st' →
      ConsoleIdsBelow (stepOp st' op)) := by
  refine ⟨?_, getConsoleMessage_preserved_step hwf, consoleIdsBelow_start,
    fun st' op h => consoleIdsBelow_stepOp h op⟩
  have hwf' : ConsoleIdsBelow (handleEvent now st ev) :=
    consoleIdsBelow_stepOp hwf (SessionOp.event now ev)
  have hstep : ∃ m : ConsoleMessage, m.id = st.consoleId ∧
      getConsoleMessage (handleEvent now st ev) st.consoleId = some m := by
    cases ev with
    | consoleAPICalled ty args ts tr =>
        refine ⟨{ id := st.consoleId, type := ty, timestamp := jsOrNat ts now,
                  text := String.intercalate " " (args.map remoteObjectText),
                  source := "console-api", line := none, url := none,
                  args := some args, stackTrace := buildFrames tr }, rfl, ?_⟩
        show (mapSet st.consoleById st.consoleId _).lookup st.consoleId = some _
        simp [lookup_mapSet]
    | exceptionThrown ts text line url tr =>
        refine ⟨{ id := st.consoleId, type := "error", timestamp := jsOrNat ts now,
                  text := text, source := "exception", line := line, url := url,
                  args := none, stackTrace := buildFrames tr }, rfl, ?_⟩
        show (mapSet st.consoleById st.consoleId _).lookup st.consoleId = some _
        simp [lookup_mapSet]
    | requestWillBeSent rid url meth headers ts ty => simp [isConsoleEvent] at hev
    | responseReceived rid rurl status rheaders ty => simp [isConsoleEvent] at hev
    | loadingFinished rid len => simp [isConsoleEvent] at hev
  obtain ⟨m, hid, hm⟩ := hstep
  exact ⟨m, hid, hm,
    getConsoleMessage_preserved_run ops hnc _ hwf' _ m hm⟩

/-- Witness for C10: a `console.log` recorded at id 1 survives a later
network event and a buffer-filling console burst. -/
theorem C10_console_detail_retention_witness :
    (∃ m : ConsoleMessage, m.id = 1 ∧
      getConsoleMessage
        (handleEvent 5 (SessionState.start 500)
          (SessionEvent.consoleAPICalled "log" [] none none)) 1 = some m ∧
      getConsoleMessage
        (runOps
          (handleEvent 5 (SessionState.start 500)
            (SessionEvent.consoleAPICalled "log" [] none none))
          [SessionOp.event 6 (SessionEvent.requestWillBeSent "r1" "u" "GET" [] 1 none),
           SessionOp.event 7 (SessionEvent.consoleAPICalled "warn" [] none none)]) 1
        = some m) ∧
    (∀ op : SessionOp, op ≠ SessionOp.clear → ∀ i m,
      getConsoleMessage (SessionState.start 500) i = some m →
      getConsoleMessage (stepOp (SessionState.start 500) op) i = some m) ∧
    (∀ bufferSize : Nat, ConsoleIdsBelow (SessionState.start bufferSize)) ∧
    (∀ (st' : SessionState) (op : SessionOp), ConsoleIdsBelow st' →
      ConsoleIdsBelow (stepOp st' op)) :=
  C10_console_detail_retention (SessionState.start 500)
    (consoleIdsBelow_start 500) 5
    (SessionEvent.consoleAPICalled "log" [] none none) rfl
    [SessionOp.event 6 (SessionEvent.requestWillBeSent "r1" "u" "GET" [] 1 none),
     SessionOp.event 7 (SessionEvent.consoleAPICalled "warn" [] none none)]
    (by simp)

/-! ## Claim C7: network event frame effects -/

/-- C7: `Network.requestWillBeSent` merge-patches `networkById[requestId]`
and pushes the merged record into `networkBuffer`; `Network.responseReceived`
and `Network.loadingFinished` merge-patch the index but leave the buffer
untouched; and `updateNetworkRequest` is a merge-patch — a field present in
the patch overwrites, a field missing from the patch inherits the prior
state — with the merged record stored back under `requestId`. -/
theorem C7_network_merge_patch (now : Nat) (st : SessionState)
    (rid url meth rurl : String) (headers rheaders : List (String × String))
    (ts status len : Nat) (ty : Option String)
    (m : List (String × NetworkRequest)) (patch : NetworkPatch) :
    (handleEvent now st (.requestWillBeSent rid url meth headers ts ty)).networkRequests
        = (updateNetworkRequest st.networkRequests now rid
            ⟨some url, some meth, some (ts * 1000), ty, none, none,
              some headers, none⟩).2 ∧
    (handleEvent now st (.requestWillBeSent rid url meth headers ts ty)).networkBuffer
        = st.networkBuffer.push (updateNetworkRequest st.networkRequests now rid
            ⟨some url, some meth, some (ts * 1000), ty, none, none,
              some headers, none⟩).1 ∧
    (handleEvent now st (.responseReceived rid rurl status rheaders ty)).networkRequests
        = (updateNetworkRequest st.networkRequests now rid
            ⟨if rurl = "" then none else some rurl, none, none, ty, some status,
              none, none, some rheaders⟩).2 ∧
    (handleEvent now st (.responseReceived rid rurl status rheaders ty)).networkBuffer
        = st.networkBuffer ∧
    (handleEvent now st (.loadingFinished rid len)).networkRequests
        = (updateNetworkRequest st.networkRequests now rid
            ⟨none, none, none, none, none, some len, none, none⟩).2 ∧
    (handleEvent now st (.loadingFinished rid len)).networkBuffer
        = st.networkBuffer ∧
    (updateNetworkRequest m now rid patch).2.lookup rid
        = some (updateNetworkRequest m now rid patch).1 ∧
    (updateNetworkRequest m now rid patch).1.id = rid ∧
    (∀ u, patch.url = some u →
      (updateNetworkRequest m now rid patch).1.url = u) ∧
    (∀ cur, patch.url = none → m.lookup rid = some cur →
      (updateNetworkRequest m now rid patch).1.url = cur.url) ∧
    (∀ v, patch.method = some v →
      (updateNetworkRequest m now rid patch).1.method = v) ∧
    (∀ cur, patch.method = none → m.lookup rid = some cur →
      (updateNetworkRequest m now rid patch).1.method = cur.method) ∧
    (∀ v, patch.timestamp = some v →
      (updateNetworkRequest m now rid patch).1.timestamp = v) ∧
    (∀ cur, patch.timestamp = none → m.lookup rid = some cur →
      (updateNetworkRequest m now rid patch).1.timestamp = cur.timestamp) ∧
    (∀ v, patch.type = some v →
      (updateNetworkRequest m now rid patch).1.type = some v) ∧
    (∀ cur, patch.type = none → m.lookup rid = some cur →
      (updateNetworkRequest m now rid patch).1.type = cur.type) ∧
    (∀ v, patch.status = some v →
      (updateNetworkRequest m now rid patch).1.status = some v) ∧
    (∀ cur, patch.status = none → m.lookup rid = some cur →
      (updateNetworkRequest m now rid patch).1.status = cur.status) ∧
    (∀ v, patch.size = some v →
      (updateNetworkRequest m now rid patch).1.size = some v) ∧
    (∀ cur, patch.size = none → m.lookup rid = some cur →
      (updateNetworkRequest m now rid patch).1.size = cur.size) ∧
    (∀ v, patch.requestHeaders = some v →
      (updateNetworkRequest m now rid patch).1.requestHeaders = some v) ∧
    (∀ cur, patch.requestHeaders = none → m.lookup rid = some cur →
      (updateNetworkRequest m now rid patch).1.requestHeaders = cur.requestHeaders) ∧
    (∀ v, patch.responseHeaders = some v →
      (updateNetworkRequest m now rid patch).1.responseHeaders = some v) ∧
    (∀ cur, patch.responseHeaders = none → m.lookup rid = some cur →
      (updateNetworkRequest m now rid patch).1.responseHeaders = cur.responseHeaders) := by
  refine ⟨rfl, rfl, rfl, rfl, rfl, rfl, ?_, rfl, ?_, ?_, ?_, ?_, ?_, ?_, ?_, ?_,
    ?_, ?_, ?_, ?_, ?_, ?_, ?_, ?_⟩
  · show (mapSet m rid _).lookup rid = _
    rw [lookup_mapSet]
    simp only [beq_self_eq_true, if_true]
    rfl
  · intro u hu; simp [updateNetworkRequest, nullish, hu]
  · intro cur hu hcur; simp [updateNetworkRequest, nullish, hu, hcur]
  · intro v hv; simp [updateNetworkRequest, nullish, hv]
  · intro cur hv hcur; simp [updateNetworkRequest, nullish, hv, hcur]
  · intro v hv; simp [updateNetworkRequest, nullish, hv]
  · intro cur hv hcur; simp [updateNetworkRequest, nullish, hv, hcur]
  · intro v hv; simp [updateNetworkRequest, nullish, hv]
  · intro cur hv hcur; simp [updateNetworkRequest, nullish, hv, hcur]
  · intro v hv; simp [updateNetworkRequest, nullish, hv]
  · intro cur hv hcur; simp [updateNetworkRequest, nullish, hv, hcur]
  · intro v hv; simp [updateNetworkRequest, nullish, hv]
  · intro cur hv hcur; simp [updateNetworkRequest, nullish, hv, hcur]
  · intro v hv; simp [updateNetworkRequest, nullish, hv]
  · intro cur hv hcur; simp [updateNetworkRequest, nullish, hv, hcur]
  · intro v hv; simp [updateNetworkRequest, nullish, hv]
  · intro cur hv hcur; simp [updateNetworkRequest, nullish, hv, hcur]

/-- Sample stored record for the C7 witness. -/
def sampleNetRequest : NetworkRequest :=
  ⟨"r1", "http://a", "GET", some 200, some "xhr", none, 111, none, none⟩

/-- Sample patch for the C7 witness: `url` and `size` present, the rest
missing. -/
def sampleNetPatch : NetworkPatch :=
  ⟨some "u2", none, none, none, none, some 42, none, none⟩

/-- Witness for C7: a present field overwrites, a missing field inherits,
and the merged record is stored. -/
theorem C7_network_merge_patch_witness :
    (updateNetworkRequest [("r1", sampleNetRequest)] 9 "r1" sampleNetPatch).1.url
        = "u2" ∧
    (updateNetworkRequest [("r1", sampleNetRequest)] 9 "r1" sampleNetPatch).1.status
        = sampleNetRequest.status ∧
    (updateNetworkRequest [("r1", sampleNetRequest)] 9 "r1" sampleNetPatch).1.size
        = some 42 ∧
    (updateNetworkRequest [("r1", sampleNetRequest)] 9 "r1" sampleNetPatch).2.lookup "r1"
        = some (updateNetworkRequest [("r1", sampleNetRequest)] 9 "r1" sampleNetPatch).1 := by
  have h := C7_network_merge_patch 9 (SessionState.start 500) "r1" "u" "GET" "ru"
    [] [] 1 200 42 none [("r1", sampleNetRequest)] sampleNetPatch
  obtain ⟨_, _, _, _, _, _, hstored, _, hurl, _, _, _, _, _, _, _, _, hstat,
    hsize, _, _, _, _, _⟩ := h
  exact ⟨hurl "u2" rfl, hstat sampleNetRequest rfl rfl, hsize 42 rfl, hstored⟩

/-! ## CDPDaemon registry (src/daemon/daemon.ts)

The registry is the `sessions: Map<string, PageSession>` plus the handlers
that mutate it.  A connection attempt's success (`session.connect()`) is
abstracted by the oracle `connectOk : String → Bool` evaluated at the pageId. -/

structure Page where
  id : String
  title : String
  url : String
  type : String
  webSocketDebuggerUrl : String
deriving Repr, DecidableEq

abbrev Registry := List (String × SessionState)

/-- Embeds `CDPDaemon.registerPage(page)`: already tracked → `true` (no-op); else
create a session, `connect()` it (oracle), on success store and report
`true`, on failure report `false` and leave the registry unchanged. -/
def registerPage (connectOk : String → Bool) (bufferSize : Nat)
    (sessions : Registry) (page : Page) : Bool × Registry :=
  if (sessions.lookup page.id).isSome then
    (true, sessions)
  else if connectOk page.id then
    (true, mapSet sessions page.id (SessionState.start bufferSize))
  else
    (false, sessions)

/-- One tick of `CDPDaemon.startHealthCheck` with the browser reachable and
reporting `pages`: close and remove every tracked session whose pageId is
not live, then register every live page not yet tracked. -/
def sweep (connectOk : String → Bool) (bufferSize : Nat)
    (sessions : Registry) (pages : List Page) : Registry :=
  let pageIds := pages.map Page.id
  let kept := sessions.filter (fun p => p.1 ∈ pageIds)
  pages.foldl
    (fun acc page =>
      if (acc.lookup page.id).isSome then acc
      else (registerPage connectOk bufferSize acc page).2)
    kept

/-- Embeds `PageSession.getStats()` counts (console, network buffer sizes). -/
def getStats (s : SessionState) : Nat × Nat :=
  (s.consoleBuffer.size, s.networkBuffer.size)

/-- Outcome of `POST /sessions` (`CDPDaemon.handleRequest`). -/
inductive PostSessionsResult where
  | badRequest
  | alreadyExists (stats : Nat × Nat)
  | created
  | connectFailed
deriving Repr, DecidableEq

/-- HTTP status the handler sends for each outcome. -/
def PostSessionsResult.status : PostSessionsResult → Nat
  | .badRequest => 400
  | .alreadyExists _ => 200
  | .created => 201
  | .connectFailed => 500

/-- The `POST /sessions` handler: `!pageId || !webSocketUrl` → 400;
already tracked → 200 with the existing session's stats, no connection
made; else connect (one attempt) and on success insert + 201, on failure
500.  The third component counts `session.connect()` calls made. -/
def postSessions (connectOk : String → Bool) (bufferSize : Nat)
    (sessions : Registry) (pageId webSocketUrl : String) :
    PostSessionsResult × Registry × Nat :=
  if pageId = "" ∨ webSocketUrl = "" then
    (.badRequest, sessions, 0)
  else
    match sessions.lookup pageId with
    | some s => (.alreadyExists (getStats s), sessions, 0)
    | none =>
        if connectOk pageId then
          (.created, mapSet sessions pageId (SessionState.start bufferSize), 1)
        else
          (.connectFailed, sessions, 1)

/-! ## Claim C4: reconciliation sweep -/

theorem lookup_filter_key (q : String → Bool) (m : Registry) (k : String) :
    (m.filter (fun p => q p.1)).lookup k = if q k then m.lookup k else none := by
  induction m with
  | nil => cases hq : q k <;> simp [List.lookup, hq]
  | cons p m ih =>
      rcases p with ⟨a, b⟩
      by_cases hk : k = a
      · subst hk
        cases hq : q k
        · simp [List.filter, hq, List.lookup, ih]
        · simp [List.filter, hq, List.lookup]
      · have hk' : (k == a) = false := by simp [hk]
        cases hq : q a <;> cases hqk : q k <;>
          simp [List.filter, hq, hqk, List.lookup, hk', ih]

theorem sweep_foldl_lookup (connectOk : String → Bool) (bufferSize : Nat)
    (ps : List Page) (hok : ∀ p ∈ ps, connectOk p.id = true) :
    ∀ (acc : Registry) (pid : String),
      (((ps.foldl
          (fun acc page =>
            if (acc.lookup page.id).isSome then acc
            else (registerPage connectOk bufferSize acc page).2)
          acc)).lookup pid).isSome
        ↔ ((acc.lookup pid).isSome ∨ pid ∈ ps.map Page.id) := by
  induction ps with
  | nil => intro acc pid; simp
  | cons p ps ih =>
      intro acc pid
      have hokp : connectOk p.id = true := hok p (List.mem_cons_self _ _)
      have hok' : ∀ q ∈ ps, connectOk q.id = true := fun q hq =>
        hok q (List.mem_cons_of_mem _ hq)
      rw [List.foldl_cons, List.map_cons]
      by_cases hhas : (acc.lookup p.id).isSome
      · rw [if_pos hhas, ih hok' acc pid, List.mem_cons]
        constructor
        · rintro (h | h)
          · exact Or.inl h
          · exact Or.inr (Or.inr h)
        · rintro (h | h | h)
          · exact Or.inl h
          · exact Or.inl (by rw [h]; exact hhas)
          · exact Or.inr h
      · rw [if_neg hhas]
        have hreg : (registerPage connectOk bufferSize acc p).2
            = mapSet acc p.id (SessionState.start bufferSize) := by
          unfold registerPage
          rw [if_neg hhas, if_pos hokp]
        rw [hreg, ih hok' _ pid, lookup_mapSet, List.mem_cons]
        by_cases hpe : pid = p.id
        · have hbe : (pid == p.id) = true := by simp [hpe]
          rw [hbe]
          simp [hpe]
        · have hbe : (pid == p.id) = false := by simp [hpe]
          rw [hbe]
          constructor
          · rintro (h | h)
            · exact Or.inl h
            · exact Or.inr (Or.inr h)
          · rintro (h | h | h)
            · exact Or.inl h
            · exact absurd h hpe
            · exact Or.inr h

/-- C4: after one polling-sweep tick, assuming every connection attempt
made during the sweep succeeds, the set of tracked pageIds equals the set
of live page-target ids: stale sessions are removed and unseen live
targets are registered. -/
theorem C4_sweep_reconciliation (connectOk : String → Bool) (bufferSize : Nat)
    (sessions : Registry) (pages : List Page)
    (hok : ∀ p ∈ pages, connectOk p.id = true) :
    ∀ pid : String,
      (((sweep connectOk bufferSize sessions pages).lookup pid).isSome)
        ↔ pid ∈ pages.map Page.id := by
  intro pid
  unfold sweep
  rw [sweep_foldl_lookup connectOk bufferSize pages hok _ pid,
    lookup_filter_key (fun a => decide (a ∈ pages.map Page.id)) sessions pid]
  by_cases hmem : pid ∈ pages.map Page.id
  · simp [hmem]
  · simp [hmem]

/-- Witness for C4: one stale session removed, one live target kept, one
new target registered. -/
theorem C4_sweep_reconciliation_witness :
    ((sweep (fun _ => true) 500
        [("stale", SessionState.start 500), ("live", SessionState.start 500)]
        [⟨"live", "t", "u", "page", "ws1"⟩, ⟨"new", "t2", "u2", "page", "ws2"⟩]).lookup
        "stale").isSome = false ∧
    ((sweep (fun _ => true) 500
        [("stale", SessionState.start 500), ("live", SessionState.start 500)]
        [⟨"live", "t", "u", "page", "ws1"⟩, ⟨"new", "t2", "u2", "page", "ws2"⟩]).lookup
        "new").isSome = true := by
  have h := C4_sweep_reconciliation (fun _ => true) 500
    [("stale", SessionState.start 500), ("live", SessionState.start 500)]
    [⟨"live", "t", "u", "page", "ws1"⟩, ⟨"new", "t2", "u2", "page", "ws2"⟩]
    (fun p _ => rfl)
  constructor
  · cases hs : ((sweep (fun _ => true) 500
        [("stale", SessionState.start 500), ("live", SessionState.start 500)]
        [⟨"live", "t", "u", "page", "ws1"⟩, ⟨"new", "t2", "u2", "page", "ws2"⟩]).lookup
        "stale").isSome with
    | false => rfl
    | true => exact absurd ((h "stale").mp hs) (by decide)
  · exact (h "new").mpr (by decide)

/-! ## Claim C5: POST /sessions idempotence -/

/-- C5: `POST /sessions` twice with the same pageId makes exactly one
connection: the first call (pageId untracked, connect succeeds) returns 201
and stores the session; the second call finds it, makes no connection
attempt, returns 200 with the existing session's stats and leaves the
registry unchanged; and `registerPage` on an already-tracked pageId is a
no-op returning success. -/
theorem C5_post_sessions_idempotent (connectOk : String → Bool)
    (bufferSize : Nat) (sessions : Registry) (pageId wsUrl : String)
    (hpid : pageId ≠ "") (hws : wsUrl ≠ "")
    (habsent : sessions.lookup pageId = none)
    (hok : connectOk pageId = true) :
    postSessions connectOk bufferSize sessions pageId wsUrl
        = (PostSessionsResult.created,
           mapSet sessions pageId (SessionState.start bufferSize), 1) ∧
    PostSessionsResult.created.status = 201 ∧
    postSessions connectOk bufferSize
        (mapSet sessions pageId (SessionState.start bufferSize)) pageId wsUrl
        = (PostSessionsResult.alreadyExists (getStats (SessionState.start bufferSize)),
           mapSet sessions pageId (SessionState.start bufferSize), 0) ∧
    (PostSessionsResult.alreadyExists (getStats (SessionState.start bufferSize))).status
        = 200 ∧
    (postSessions connectOk bufferSize sessions pageId wsUrl).2.2 +
      (postSessions connectOk bufferSize
        (mapSet sessions pageId (SessionState.start bufferSize)) pageId wsUrl).2.2
      = 1 ∧
    (∀ (page : Page) (reg : Registry), ((reg.lookup page.id)).isSome →
      registerPage connectOk bufferSize reg page = (true, reg)) := by
  have hfirst : postSessions connectOk bufferSize sessions pageId wsUrl
      = (PostSessionsResult.created,
         mapSet sessions pageId (SessionState.start bufferSize), 1) := by
    unfold postSessions
    rw [if_neg (by simp [hpid, hws]), habsent, if_pos hok]
  have hlook : (mapSet sessions pageId (SessionState.start bufferSize)).lookup pageId
      = some (SessionState.start bufferSize) := by
    rw [lookup_mapSet]
    simp
  have hsecond : postSessions connectOk bufferSize
      (mapSet sessions pageId (SessionState.start bufferSize)) pageId wsUrl
      = (PostSessionsResult.alreadyExists (getStats (SessionState.start bufferSize)),
         mapSet sessions pageId (SessionState.start bufferSize), 0) := by
    unfold postSessions
    rw [if_neg (by simp [hpid, hws]), hlook]
  refine ⟨hfirst, rfl, hsecond, rfl, ?_, ?_⟩
  · rw [hfirst, hsecond]
    rfl
  · intro page reg hreg
    unfold registerPage
    rw [if_pos hreg]

/-- Witness for C5: two `POST /sessions` for pageId `"p"` on an empty
registry. -/
theorem C5_post_sessions_idempotent_witness :
    postSessions (fun _ => true) 500 [] "p" "ws://x"
        = (PostSessionsResult.created,
           mapSet [] "p" (SessionState.start 500), 1) ∧
    postSessions (fun _ => true) 500 (mapSet [] "p" (SessionState.start 500)) "p" "ws://x"
        = (PostSessionsResult.alreadyExists (getStats (SessionState.start 500)),
           mapSet [] "p" (SessionState.start 500), 0) ∧
    (postSessions (fun _ => true) 500 [] "p" "ws://x").2.2 +
      (postSessions (fun _ => true) 500 (mapSet [] "p" (SessionState.start 500)) "p" "ws://x").2.2
      = 1 := by
  have h := C5_post_sessions_idempotent (fun _ => true) 500 [] "p" "ws://x"
    (by decide) (by decide) rfl rfl
  exact ⟨h.1, h.2.2.1, h.2.2.2.2.1⟩

/-! ## Claim C6: POST /exec-batch -/

structure BatchCmd where
  method : String
  params : Option String
deriving Repr, DecidableEq

inductive BatchItem where
  | success (result : Option String)
  | failure (error : String)
deriving Repr, DecidableEq

/-- The `/exec-batch` loop: one `sendCommand` per command, `{success:true,
result}` on resolution, `{success:false, error}` on rejection; execution
continues past failures.  `exec` abstracts `session.sendCommand`'s outcome
for each command. -/
def execBatch (exec : BatchCmd → Except String (Option String))
    (cmds : List BatchCmd) : List BatchItem :=
  cmds.map fun c =>
    match exec c with
    | .ok r => BatchItem.success r
    | .error e => BatchItem.failure e

inductive ExecBatchResult where
  | badRequest
  | notFound
  | notConnected
  | ok (results : List BatchItem)
deriving Repr, DecidableEq

def ExecBatchResult.status : ExecBatchResult → Nat
  | .badRequest => 400
  | .notFound => 404
  | .notConnected => 503
  | .ok _ => 200

/-- The `POST /exec-batch` handler: missing pageId or non-array commands →
400; unknown session → 404; not connected → 503; else run the loop and
answer 200 with one result per command. -/
def postExecBatch (sessions : Registry) (connected : String → Bool)
    (exec : BatchCmd → Except String (Option String))
    (pageId : Option String) (commands : Option (List BatchCmd)) :
    ExecBatchResult :=
  match pageId, commands with
  | some pid, some cs =>
      if pid = "" then ExecBatchResult.badRequest
      else
        match sessions.lookup pid with
        | none => ExecBatchResult.notFound
        | some _ =>
            if connected pid then ExecBatchResult.ok (execBatch exec cs)
            else ExecBatchResult.notConnected
  | _, _ => ExecBatchResult.badRequest

/-- C6: for an existing, connected session, `/exec-batch` answers 200 with
one entry per submitted command in order, each independently marked
success or failure; a failing command does not abort the rest — with 3
commands whose 2nd fails the results are `[success, failure, success]`. -/
theorem C6_exec_batch_continues (sessions : Registry)
    (connected : String → Bool)
    (exec : BatchCmd → Except String (Option String)) (pid : String)
    (cs : List BatchCmd) (s : SessionState)
    (hpid : pid ≠ "") (hs : sessions.lookup pid = some s)
    (hc : connected pid = true) :
    postExecBatch sessions connected exec (some pid) (some cs)
        = ExecBatchResult.ok (execBatch exec cs) ∧
    (postExecBatch sessions connected exec (some pid) (some cs)).status = 200 ∧
    (execBatch exec cs).length = cs.length ∧
    (∀ i : Nat, (execBatch exec cs)[i]? = (cs[i]?).map (fun c =>
      match exec c with
      | .ok r => BatchItem.success r
      | .error e => BatchItem.failure e)) ∧
    (∀ (c1 c2 c3 : BatchCmd) (r1 r3 : Option String) (e : String),
      exec c1 = Except.ok r1 → exec c2 = Except.error e →
      exec c3 = Except.ok r3 →
      execBatch exec [c1, c2, c3]
        = [BatchItem.success r1, BatchItem.failure e, BatchItem.success r3]) := by
  have hok : postExecBatch sessions connected exec (some pid) (some cs)
      = ExecBatchResult.ok (execBatch exec cs) := by
    unfold postExecBatch
    dsimp only
    rw [if_neg hpid, hs]
    dsimp only
    rw [if_pos hc]
  refine ⟨hok, by rw [hok]; rfl, by simp [execBatch], ?_, ?_⟩
  · intro i
    simp [execBatch, List.getElem?_map]
  · intro c1 c2 c3 r1 r3 e h1 h2 h3
    simp [execBatch, h1, h2, h3]

/-- The C6 witness's command oracle: method `"B"` fails, everything else
succeeds. -/
def sampleExec (c : BatchCmd) : Except String (Option String) :=
  if c.method = "B" then Except.error "boom" else Except.ok (some "done")

/-- Witness for C6: three commands against a connected session; the second
fails, the first and third still run. -/
theorem C6_exec_batch_continues_witness :
    postExecBatch [("p", SessionState.start 500)] (fun _ => true) sampleExec
        (some "p") (some [⟨"A", none⟩, ⟨"B", none⟩, ⟨"C", none⟩])
      = ExecBatchResult.ok
          [BatchItem.success (some "done"), BatchItem.failure "boom",
           BatchItem.success (some "done")] := by
  have h := C6_exec_batch_continues [("p", SessionState.start 500)]
    (fun _ => true) sampleExec "p" [⟨"A", none⟩, ⟨"B", none⟩, ⟨"C", none⟩]
    (SessionState.start 500) (by decide) rfl rfl
  rw [h.1, h.2.2.2.2 ⟨"A", none⟩ ⟨"B", none⟩ ⟨"C", none⟩ (some "done")
    (some "done") "boom" rfl rfl rfl]
